import Mathlib

/-!
# Verification of the EquaLab reaction trainer timing core

Shallow embedding of the timing and state-machine engine of
`src/app/page.tsx` (the `ReactionsPage` component).  Host time
(`performance.now()`) is modelled by `ℚ`; JavaScript numbers that can be
`NaN` or `Infinity` (only the persisted best time) are modelled by an
explicit sum type `JsNum`.  The React component state (`useState`) and the
mutable refs (`useRef`) are flattened into one record `Sys`; each event
handler and each scheduled callback of the source becomes a state-to-state
function taking the current clock reading as an argument.
-/

namespace EqualabReaction

/-- Model of a JavaScript number as used for `bestRef.current`:
either `NaN`, `Infinity`, or an ordinary (rational) number.
Negative infinity never occurs in this program. -/
inductive JsNum where
  | nan : JsNum
  | inf : JsNum
  | num (q : ℚ) : JsNum
  deriving DecidableEq, Repr

/-- JavaScript truthiness of a number: `0` and `NaN` are falsy,
every other number (including `Infinity`) is truthy. -/
def jsTruthy : JsNum → Bool
  | JsNum.nan => false
  | JsNum.inf => true
  | JsNum.num q => decide (q ≠ 0)

/-- The JavaScript `a || b` operator on numbers: returns `a` when `a`
is truthy, otherwise `b`. -/
def jsOr (a b : JsNum) : JsNum := if jsTruthy a then a else b

/-- The JavaScript `<` comparison on numbers: any comparison with `NaN`
is false; `Infinity < x` is false; `x < Infinity` is true for finite x. -/
def jsLt : JsNum → JsNum → Bool
  | JsNum.nan, _ => false
  | _, JsNum.nan => false
  | JsNum.inf, _ => false
  | JsNum.num _, JsNum.inf => true
  | JsNum.num a, JsNum.num b => decide (a < b)

/-- JavaScript `Math.round`: rounds to the nearest integer, halves
toward positive infinity, i.e. `⌊q + 1/2⌋`. -/
def jsRound (q : ℚ) : ℤ := ⌊q + 1 / 2⌋

/-- Reads a list of decimal digit characters as a natural number;
any non-digit character fails the parse. -/
def parseDigitsAux : List Char → ℕ → Option ℕ
  | [], acc => some acc
  | c :: rest, acc =>
      if c.isDigit then parseDigitsAux rest (acc * 10 + (c.toNat - 48)) else none

/-- Model of the host `Number(string)` conversion, restricted to the
two classes of strings relevant under the key `"best"`: the program
itself only ever writes `String(r.time)` with `r.time` a non-negative
integer, so canonical decimal digit strings convert to that number, the
empty string converts to 0 (as in JavaScript; it never reaches `Number`
here because `if (stored)` filters it out), and non-numeric strings
convert to `NaN`.  Strings that JavaScript would parse as non-integer
numbers (such as `"12.5"`) are outside the modelled classes. -/
def jsNumber (s : String) : JsNum :=
  match parseDigitsAux s.data 0 with
  | some n => JsNum.num n
  | none => JsNum.nan

/-- `type GameState = "idle" | "countdown" | "waiting" | "reacting" | "result"`. -/
inductive GameState where
  | idle : GameState
  | countdown : GameState
  | waiting : GameState
  | reacting : GameState
  | result : GameState
  deriving DecidableEq, Repr

/-- `interface Result` of the source: `time` is milliseconds or `null`
for jump starts.  The wall-clock ISO timestamp (`new Date()`) is
abstracted to the rational event time of the recording call. -/
structure RResult where
  time : Option ℤ
  jumpStart : Bool
  timestamp : ℚ
  deriving DecidableEq, Repr

/-- The whole mutable state of `ReactionsPage`: the `useState` cells, the
`useRef` cells, and the liveness of the two scheduled callbacks.
`rafLive` is true when an animation-frame callback is pending
(`rafRef.current` holds a cancellable id), `timeoutLive` when the
lights-out timeout is pending (`timeoutRef.current`); `store` is the
content of the `localStorage` key `"best"`. -/
structure Sys where
  gameState : GameState
  activeLights : ℤ
  reactionTime : Option ℤ
  results : List RResult
  systemLatency : ℚ
  isCalibrating : Bool
  rafLive : Bool
  timeoutLive : Bool
  lightsStart : ℚ
  lightsOutTime : ℚ
  running : Bool
  best : JsNum
  jumpStart : Bool
  store : Option String
  deriving DecidableEq, Repr

/-- Initial component state: the `useState` initials and `useRef`
initials of the source (`gameState = "idle"`, `activeLights = 0`,
`isCalibrating = true`, `bestRef = Infinity`, no pending callbacks),
with `stored` the pre-existing content of `localStorage` key `"best"`. -/
def initSys (stored : Option String) : Sys :=
  { gameState := GameState.idle
    activeLights := 0
    reactionTime := none
    results := []
    systemLatency := 0
    isCalibrating := true
    rafLive := false
    timeoutLive := false
    lightsStart := 0
    lightsOutTime := 0
    running := false
    best := JsNum.inf
    jumpStart := false
    store := stored }

/-- The mount effect reading the persisted best:
`const stored = localStorage.getItem("best"); if (stored) bestRef.current = Number(stored);`
— `if (stored)` is false exactly for `null` and the empty string. -/
def loadBestStored (s : Sys) : Sys :=
  match s.store with
  | none => s
  | some str => if str = "" then s else { s with best := jsNumber str }

/-- Ascending sort, modelling `samples.sort((a, b) => a - b)`.
`List.insertionSort` is used because on `ℚ` any ascending sort produces
the same list (a sorted permutation is unique). -/
def sortAsc (l : List ℚ) : List ℚ := List.insertionSort (· ≤ ·) l

/-- The number of `setTimeout(0)` round-trip samples the calibration
effect collects before computing the compensation (`if (count < 12)`). -/
def calibrationSampleCount : ℕ := 12

/-- End of the calibration effect, from the collected samples:
`samples.sort((a, b) => a - b); const median = samples[Math.floor(samples.length / 2)];
setSystemLatency(Math.max(0, Math.round(median)));`.
The out-of-range default 0 of `getD` is never used: the source always
indexes a non-empty array. -/
def calibrate (samples : List ℚ) : ℚ :=
  let sorted := sortAsc samples
  let median := sorted.getD (samples.length / 2) 0
  max 0 ((jsRound median : ℤ) : ℚ)

/-- Completion of the calibration effect: publishes the compensation and
leaves the calibrating mode (`setSystemLatency(...); setIsCalibrating(false)`). -/
def calibFinish (samples : List ℚ) (s : Sys) : Sys :=
  { s with systemLatency := calibrate samples, isCalibrating := false }

/-- `pushResult`: prepends the result, truncates the history to 10, and
when the attempt is valid (`!r.jumpStart && r.time !== null`) and beats
`bestRef.current || Infinity`, updates the best and persists it with
`localStorage.setItem("best", String(r.time))`. -/
def pushResult (r : RResult) (s : Sys) : Sys :=
  let rs := (r :: s.results).take 10
  match r.time, r.jumpStart with
  | some t, false =>
      if jsLt (JsNum.num t) (jsOr s.best JsNum.inf) then
        { s with results := rs, best := JsNum.num t, store := some (toString t) }
      else
        { s with results := rs }
  | _, _ => { s with results := rs }

/-- `startGame`: no-op while a round is running, otherwise resets the
round state, anchors the light timeline at `now`
(`lightsStartRef.current = performance.now()`), enters `countdown` and
requests the first animation frame. -/
def startGame (now : ℚ) (s : Sys) : Sys :=
  if s.running then s
  else
    { s with
      running := true
      reactionTime := none
      jumpStart := false
      lightsOutTime := 0
      activeLights := 0
      gameState := GameState.countdown
      lightsStart := now
      rafLive := true }

/-- `const toLight = Math.min(5, Math.floor(elapsed / 1000) + 1)` with
`elapsed = now - lightsStartRef.current`. -/
def toLight (t0 now : ℚ) : ℤ := min 5 (⌊(now - t0) / 1000⌋ + 1)

/-- The recurring `frame(now)` animation-frame callback.  It only runs
while an animation frame is pending (`rafLive`); cancellation makes it a
no-op.  It recomputes the lit-light count from the elapsed time (the
`toLight !== activeLights` guard of the source only skips a redundant
state write, the resulting state is the same), re-requests itself below
5 lights, and at 5 lights enters `waiting` and schedules the one-shot
lights-out timeout after a random delay.  The random delay only fixes
the host time at which `timeoutFire` later runs, which the model exposes
as that function's own `now` argument. -/
def frameTick (now : ℚ) (s : Sys) : Sys :=
  if s.rafLive then
    let k := toLight s.lightsStart now
    if k < 5 then
      { s with activeLights := k }
    else
      { s with
        activeLights := k
        gameState := GameState.waiting
        rafLive := false
        timeoutLive := true }
  else s

/-- The lights-out timeout callback: records the exact lights-out
instant (`lightsOutTimeRef.current = performance.now()`), turns all
lights off and enters `reacting`.  It only runs while the timeout is
pending; cancellation makes it a no-op. -/
def timeoutFire (now : ℚ) (s : Sys) : Sys :=
  if s.timeoutLive then
    { s with
      lightsOutTime := now
      activeLights := 0
      gameState := GameState.reacting
      timeoutLive := false }
  else s

/-- `stopRunningClean`: clears the round-active flag and cancels both
scheduled callbacks (`cancelAnimationFrame` and `clearTimeout`). -/
def stopRunningClean (s : Sys) : Sys :=
  { s with running := false, rafLive := false, timeoutLive := false }

/-- `handleReaction`: the single abstract reaction signal.  When no
round is running and the state is `idle` or `result` it starts a round;
otherwise, when lights-out has not been recorded yet
(`!lightsOutTimeRef.current`, i.e. the 0 sentinel) it records a jump
start; otherwise it computes the calibrated reaction time
`Math.max(0, Math.round(raw - systemLatency))` with
`raw = performance.now() - lightsOutTimeRef.current` and records it. -/
def handleReaction (now : ℚ) (s : Sys) : Sys :=
  if !s.running && (s.gameState = GameState.idle || s.gameState = GameState.result) then
    startGame now s
  else if s.lightsOutTime = 0 then
    let s1 := stopRunningClean s
    let s2 := { s1 with
      jumpStart := true
      gameState := GameState.result
      activeLights := 0 }
    pushResult { time := none, jumpStart := true, timestamp := now } s2
  else
    let s1 := stopRunningClean s
    let raw := now - s.lightsOutTime
    let calibrated : ℤ := max 0 (jsRound (raw - s.systemLatency))
    let s2 := { s1 with
      reactionTime := some calibrated
      gameState := GameState.result }
    pushResult { time := some calibrated, jumpStart := false, timestamp := now } s2

/-- Folding a sequence of recorded attempts into the ledger,
oldest first. -/
def recordMany (s : Sys) (rs : List RResult) : Sys :=
  rs.foldl (fun t r => pushResult r t) s

/-- Reachable component states: the initial state for any stored best,
closed under every entry point and scheduled callback of the source
(the mount effect, calibration completion, `startGame`,
`handleReaction`, the `frame` tick, and the lights-out timeout). -/
inductive Reach : Sys → Prop where
  | init (stored : Option String) : Reach (initSys stored)
  | load {s : Sys} : Reach s → Reach (loadBestStored s)
  | calib {s : Sys} (samples : List ℚ) : Reach s → Reach (calibFinish samples s)
  | start {s : Sys} (now : ℚ) : Reach s → Reach (startGame now s)
  | react {s : Sys} (now : ℚ) : Reach s → Reach (handleReaction now s)
  | tick {s : Sys} (now : ℚ) : Reach s → Reach (frameTick now s)
  | fire {s : Sys} (now : ℚ) : Reach s → Reach (timeoutFire now s)

/-- The inductive state invariant: the round-active flag agrees with the
game state, a pending animation frame implies an active countdown, a
pending timeout implies an active waiting phase, and before lights-out
the lights-out timestamp still holds its 0 sentinel. -/
def GoodSys (s : Sys) : Prop :=
  (s.running = true ↔
    (s.gameState = GameState.countdown ∨ s.gameState = GameState.waiting ∨
      s.gameState = GameState.reacting))
  ∧ (s.rafLive = true → s.running = true ∧ s.gameState = GameState.countdown)
  ∧ (s.timeoutLive = true → s.running = true ∧ s.gameState = GameState.waiting)
  ∧ ((s.gameState = GameState.countdown ∨ s.gameState = GameState.waiting) →
      s.lightsOutTime = 0)

/-! ## Helper lemmas -/

theorem pushResult_results (r : RResult) (s : Sys) :
    (pushResult r s).results = (r :: s.results).take 10 := by
  unfold pushResult
  repeat' split
  all_goals rfl

theorem pushResult_gameState (r : RResult) (s : Sys) :
    (pushResult r s).gameState = s.gameState := by
  unfold pushResult
  repeat' split
  all_goals rfl

theorem pushResult_running (r : RResult) (s : Sys) :
    (pushResult r s).running = s.running := by
  unfold pushResult
  repeat' split
  all_goals rfl

theorem pushResult_rafLive (r : RResult) (s : Sys) :
    (pushResult r s).rafLive = s.rafLive := by
  unfold pushResult
  repeat' split
  all_goals rfl

theorem pushResult_timeoutLive (r : RResult) (s : Sys) :
    (pushResult r s).timeoutLive = s.timeoutLive := by
  unfold pushResult
  repeat' split
  all_goals rfl

theorem pushResult_lightsOutTime (r : RResult) (s : Sys) :
    (pushResult r s).lightsOutTime = s.lightsOutTime := by
  unfold pushResult
  repeat' split
  all_goals rfl

theorem pushResult_reactionTime (r : RResult) (s : Sys) :
    (pushResult r s).reactionTime = s.reactionTime := by
  unfold pushResult
  repeat' split
  all_goals rfl

theorem pushResult_jumpStart (r : RResult) (s : Sys) :
    (pushResult r s).jumpStart = s.jumpStart := by
  unfold pushResult
  repeat' split
  all_goals rfl

/-- A jump-start result (`time = none`) leaves the best untouched. -/
theorem pushResult_best_of_jumpStart (r : RResult) (s : Sys)
    (h : r.time = none) : (pushResult r s).best = s.best := by
  unfold pushResult
  rcases r with ⟨time, js, ts⟩
  simp only at h
  subst h
  rcases js <;> rfl

/-- A jump-start result (`time = none`) leaves the persisted store untouched. -/
theorem pushResult_store_of_jumpStart (r : RResult) (s : Sys)
    (h : r.time = none) : (pushResult r s).store = s.store := by
  unfold pushResult
  rcases r with ⟨time, js, ts⟩
  simp only at h
  subst h
  rcases js <;> rfl

/-- `Math.round` of a non-negative number is non-negative. -/
theorem jsRound_nonneg {q : ℚ} (h : 0 ≤ q) : 0 ≤ jsRound q := by
  unfold jsRound
  exact Int.floor_nonneg.mpr (by linarith)

/-- `Math.round` of a negative number is at most 0. -/
theorem jsRound_nonpos {q : ℚ} (h : q < 0) : jsRound q ≤ 0 := by
  unfold jsRound
  have : (⌊q + 1 / 2⌋ : ℤ) < 1 := by
    rw [Int.floor_lt]
    push_cast
    linarith
  omega

/-- `Math.round` is monotone. -/
theorem jsRound_mono {a b : ℚ} (h : a ≤ b) : jsRound a ≤ jsRound b := by
  unfold jsRound
  exact Int.floor_le_floor (by linarith)

/-! ## The state invariant carried by every reachable state -/

theorem goodSys_initSys (stored : Option String) : GoodSys (initSys stored) := by
  simp [GoodSys, initSys]

theorem goodSys_loadBestStored {s : Sys} (h : GoodSys s) :
    GoodSys (loadBestStored s) := by
  obtain ⟨h1, h2, h3, h4⟩ := h
  unfold loadBestStored
  split
  · exact ⟨h1, h2, h3, h4⟩
  · split
    · exact ⟨h1, h2, h3, h4⟩
    · exact ⟨h1, h2, h3, h4⟩

theorem goodSys_calibFinish {s : Sys} (samples : List ℚ) (h : GoodSys s) :
    GoodSys (calibFinish samples s) := by
  obtain ⟨h1, h2, h3, h4⟩ := h
  exact ⟨h1, h2, h3, h4⟩

theorem goodSys_startGame {s : Sys} (now : ℚ) (h : GoodSys s) :
    GoodSys (startGame now s) := by
  obtain ⟨h1, h2, h3, h4⟩ := h
  unfold startGame
  split
  case isTrue hr => exact ⟨h1, h2, h3, h4⟩
  case isFalse hr =>
    have hrun : s.running = false := by simpa using hr
    have hto : s.timeoutLive = false := by
      cases hto : s.timeoutLive
      · rfl
      · exact absurd (h3 hto).1 (by simp [hrun])
    exact ⟨by simp, by simp, by simp [hto], by simp⟩

theorem goodSys_frameTick {s : Sys} (now : ℚ) (h : GoodSys s) :
    GoodSys (frameTick now s) := by
  obtain ⟨h1, h2, h3, h4⟩ := h
  unfold frameTick
  split
  case isFalse => exact ⟨h1, h2, h3, h4⟩
  case isTrue hraf =>
    obtain ⟨hrun, hcd⟩ := h2 (by simpa using hraf)
    have hlo : s.lightsOutTime = 0 := h4 (Or.inl hcd)
    dsimp only
    split
    · exact ⟨h1, h2, h3, h4⟩
    · exact ⟨by simp [hrun], by simp, fun _ => ⟨hrun, rfl⟩, fun _ => hlo⟩

theorem goodSys_timeoutFire {s : Sys} (now : ℚ) (h : GoodSys s) :
    GoodSys (timeoutFire now s) := by
  obtain ⟨h1, h2, h3, h4⟩ := h
  unfold timeoutFire
  split
  case isFalse => exact ⟨h1, h2, h3, h4⟩
  case isTrue hto =>
    obtain ⟨hrun, hwt⟩ := h3 (by simpa using hto)
    have hraf : s.rafLive = false := by
      cases hraf : s.rafLive
      · rfl
      · exfalso
        have hcd := (h2 hraf).2
        rw [hwt] at hcd
        simp at hcd
    exact ⟨by simp [hrun], by simp [hraf], by simp, by simp⟩

/-- After a round ends, `pushResult` keeps the invariant: the state is
`result`, the round-active flag is down and both callbacks cancelled. -/
theorem goodSys_pushResult_resultState (r : RResult) (s2 : Sys)
    (hrun : s2.running = false) (hgs : s2.gameState = GameState.result)
    (hraf : s2.rafLive = false) (hto : s2.timeoutLive = false) :
    GoodSys (pushResult r s2) := by
  refine ⟨?_, ?_, ?_, ?_⟩
  · rw [pushResult_running, pushResult_gameState]
    simp [hrun, hgs]
  · rw [pushResult_rafLive]
    simp [hraf]
  · rw [pushResult_timeoutLive]
    simp [hto]
  · rw [pushResult_gameState]
    simp [hgs]

theorem goodSys_handleReaction {s : Sys} (now : ℚ) (h : GoodSys s) :
    GoodSys (handleReaction now s) := by
  rw [handleReaction]
  split
  · exact goodSys_startGame now h
  · split
    · exact goodSys_pushResult_resultState _ _ rfl rfl rfl rfl
    · exact goodSys_pushResult_resultState _ _ rfl rfl rfl rfl

/-- Every reachable component state satisfies the invariant. -/
theorem reach_goodSys {s : Sys} (h : Reach s) : GoodSys s := by
  induction h with
  | init stored => exact goodSys_initSys stored
  | load _ ih => exact goodSys_loadBestStored ih
  | calib samples _ ih => exact goodSys_calibFinish samples ih
  | start now _ ih => exact goodSys_startGame now ih
  | react now _ ih => exact goodSys_handleReaction now ih
  | tick now _ ih => exact goodSys_frameTick now ih
  | fire now _ ih => exact goodSys_timeoutFire now ih

/-- A cancelled (or never scheduled) animation frame never runs. -/
theorem frameTick_of_rafDead {s : Sys} (now : ℚ) (h : s.rafLive = false) :
    frameTick now s = s := by
  rw [frameTick]
  simp [h]

/-- A cancelled (or never scheduled) lights-out timeout never runs. -/
theorem timeoutFire_of_dead {s : Sys} (now : ℚ) (h : s.timeoutLive = false) :
    timeoutFire now s = s := by
  rw [timeoutFire]
  simp [h]

/-! ## Claim theorems -/

/-- C1: a reaction signal delivered while the round is active and the
lights-out timestamp has been recorded produces an attempt whose
`elapsedMs` is `max(0, round(raw - latencyCompensationMs))` for
`raw = now - t_out`; this value is a non-negative integer, equals
`round(raw - latencyCompensationMs)` whenever `raw ≥ latencyCompensationMs`,
and equals 0 otherwise. -/
theorem reaction_elapsedMs_calibrated_clamped (s : Sys) (now : ℚ)
    (hr : s.running = true) (ha : s.lightsOutTime ≠ 0) :
    (handleReaction now s).results.head? =
      some { time := some (max 0 (jsRound (now - s.lightsOutTime - s.systemLatency))),
             jumpStart := false, timestamp := now }
    ∧ (handleReaction now s).reactionTime =
        some (max 0 (jsRound (now - s.lightsOutTime - s.systemLatency)))
    ∧ 0 ≤ max 0 (jsRound (now - s.lightsOutTime - s.systemLatency))
    ∧ (s.systemLatency ≤ now - s.lightsOutTime →
        max 0 (jsRound (now - s.lightsOutTime - s.systemLatency)) =
          jsRound (now - s.lightsOutTime - s.systemLatency))
    ∧ (now - s.lightsOutTime < s.systemLatency →
        max 0 (jsRound (now - s.lightsOutTime - s.systemLatency)) = 0) := by
  have hred : handleReaction now s =
      pushResult
        { time := some (max 0 (jsRound (now - s.lightsOutTime - s.systemLatency))),
          jumpStart := false, timestamp := now }
        { stopRunningClean s with
          reactionTime := some (max 0 (jsRound (now - s.lightsOutTime - s.systemLatency))),
          gameState := GameState.result } := by
    rw [handleReaction]
    simp only [hr, Bool.not_true, Bool.false_and, Bool.false_eq_true, if_false, if_neg ha]
  refine ⟨?_, ?_, le_max_left 0 _, ?_, ?_⟩
  · rw [hred, pushResult_results]
    simp
  · rw [hred, pushResult_reactionTime]
  · intro hle
    exact max_eq_right (jsRound_nonneg (by linarith))
  · intro hlt
    exact max_eq_left (jsRound_nonpos (by linarith))

/-- Witness for C1 at the worked example of the specification:
lights out at `t = 1000`, reaction at `t = 1205.3`, compensation 8,
giving `raw = 205.3` and a calibrated 197 ms attempt. -/
theorem reaction_elapsedMs_calibrated_clamped_witness :
    (handleReaction (12053 / 10)
        { initSys none with
          running := true, gameState := GameState.reacting,
          lightsOutTime := 1000, systemLatency := 8 }).reactionTime = some 197
    ∧ (0 : ℤ) ≤ 197 := by
  have h := reaction_elapsedMs_calibrated_clamped
    { initSys none with
      running := true, gameState := GameState.reacting,
      lightsOutTime := 1000, systemLatency := 8 }
    (12053 / 10) rfl (by norm_num [initSys])
  refine ⟨?_, by norm_num⟩
  rw [h.2.1]
  norm_num [jsRound]

/-- C2: a reaction signal delivered while the reachable round is still
in `countdown` or `waiting` (hence strictly before lights-out, whatever
number of lights is showing) records a jump start: `elapsedMs = none`,
`isJumpStart = true`, and the machine enters `result`. -/
theorem reaction_before_lightsOut_jumpStart (s : Sys) (now : ℚ) (h : Reach s)
    (hg : s.gameState = GameState.countdown ∨ s.gameState = GameState.waiting) :
    (handleReaction now s).results.head? =
      some { time := none, jumpStart := true, timestamp := now }
    ∧ (handleReaction now s).jumpStart = true
    ∧ (handleReaction now s).gameState = GameState.result := by
  have hlo : s.lightsOutTime = 0 := (reach_goodSys h).2.2.2 hg
  have hgs : (s.gameState = GameState.idle || s.gameState = GameState.result : Bool)
      = false := by
    rcases hg with hg | hg <;> simp [hg]
  have hred : handleReaction now s =
      pushResult { time := none, jumpStart := true, timestamp := now }
        { stopRunningClean s with
          jumpStart := true, gameState := GameState.result, activeLights := 0 } := by
    rw [handleReaction]
    simp only [hgs, Bool.and_false, Bool.false_eq_true, if_false, hlo, if_pos]
  rw [hred]
  refine ⟨?_, ?_, ?_⟩
  · rw [pushResult_results]
    simp
  · rw [pushResult_jumpStart]
  · rw [pushResult_gameState]

/-- Witness for C2: a reaction 300 ms into a freshly started round. -/
theorem reaction_before_lightsOut_jumpStart_witness :
    (handleReaction 300 (startGame 0 (initSys none))).results.head? =
      some { time := none, jumpStart := true, timestamp := 300 }
    ∧ (handleReaction 300 (startGame 0 (initSys none))).jumpStart = true
    ∧ (handleReaction 300 (startGame 0 (initSys none))).gameState = GameState.result :=
  reaction_before_lightsOut_jumpStart (startGame 0 (initSys none)) 300
    (Reach.start 0 (Reach.init none))
    (Or.inl (by norm_num [startGame, initSys]))

/-- C4: whenever a reaction signal moves the machine into `result`
(jump-start path or timed path), both scheduled callbacks are cancelled:
no pending animation frame and no pending timeout remain, so a late
delivery of either callback leaves the state (in particular game state
and light progress) unchanged. -/
theorem result_transition_cancels_callbacks (s : Sys) (now now2 : ℚ)
    (h : (handleReaction now s).gameState = GameState.result) :
    (handleReaction now s).rafLive = false
    ∧ (handleReaction now s).timeoutLive = false
    ∧ frameTick now2 (handleReaction now s) = handleReaction now s
    ∧ timeoutFire now2 (handleReaction now s) = handleReaction now s := by
  have hlive : (handleReaction now s).rafLive = false ∧
      (handleReaction now s).timeoutLive = false := by
    revert h
    rw [handleReaction]
    split
    case isTrue hcond =>
      intro h
      exfalso
      simp only [Bool.and_eq_true, Bool.not_eq_true', Bool.or_eq_true,
        decide_eq_true_eq] at hcond
      obtain ⟨hrun, _⟩ := hcond
      rw [startGame, if_neg (by simp [hrun])] at h
      simp at h
    case isFalse hcond =>
      split
      · intro _
        dsimp only
        rw [pushResult_rafLive, pushResult_timeoutLive]
        exact ⟨rfl, rfl⟩
      · intro _
        dsimp only
        rw [pushResult_rafLive, pushResult_timeoutLive]
        exact ⟨rfl, rfl⟩
  exact ⟨hlive.1, hlive.2, frameTick_of_rafDead now2 hlive.1,
    timeoutFire_of_dead now2 hlive.2⟩

/-- Witness for C4: a jump-start reaction 500 ms into a fresh round
lands in `result` with both callbacks cancelled. -/
theorem result_transition_cancels_callbacks_witness :
    (handleReaction 500 (startGame 0 (initSys none))).rafLive = false
    ∧ (handleReaction 500 (startGame 0 (initSys none))).timeoutLive = false
    ∧ frameTick 900 (handleReaction 500 (startGame 0 (initSys none)))
        = handleReaction 500 (startGame 0 (initSys none))
    ∧ timeoutFire 900 (handleReaction 500 (startGame 0 (initSys none)))
        = handleReaction 500 (startGame 0 (initSys none)) :=
  result_transition_cancels_callbacks (startGame 0 (initSys none)) 500 900
    (by norm_num [handleReaction, startGame, initSys, stopRunningClean,
      pushResult_gameState])

/-- The median index rule claimed by the specification: the lower-middle
element of the ascending-sorted samples, i.e. index `(N - 1) / 2`
(for even N this is the lower of the two central elements). -/
def lowerMedianSpec (l : List ℚ) : ℚ := (sortAsc l).getD ((l.length - 1) / 2) 0

/-- C3 counterexample: the code takes the sorted element at index
`⌊N/2⌋`, which for the even sample count N = 12 is the upper-middle
element, not the lower-middle one claimed by the specification: on the
12 samples `[0,0,0,0,0,0,3,3,3,3,3,3]` the code returns 3 while the
lower-middle median is 0, and on `[0,...,0]` both are 0, so no fixed
buffer can reconcile the two. -/
theorem calibrate_not_lower_median :
    calibrate [0, 0, 0, 0, 0, 0, 3, 3, 3, 3, 3, 3] = 3
    ∧ lowerMedianSpec [0, 0, 0, 0, 0, 0, 3, 3, 3, 3, 3, 3] = 0
    ∧ calibrate [0, 0, 0, 0, 0, 0, 0, 0, 0, 0, 0, 0] = 0
    ∧ lowerMedianSpec [0, 0, 0, 0, 0, 0, 0, 0, 0, 0, 0, 0] = 0
    ∧ ¬ ∃ b : ℚ, ∀ samples : List ℚ,
        calibrate samples = lowerMedianSpec samples + b := by
  have e1 : calibrate [0, 0, 0, 0, 0, 0, 3, 3, 3, 3, 3, 3] = 3 := by
    norm_num [calibrate, sortAsc, List.insertionSort, List.orderedInsert, jsRound]
  have e2 : lowerMedianSpec [0, 0, 0, 0, 0, 0, 3, 3, 3, 3, 3, 3] = 0 := by
    norm_num [lowerMedianSpec, sortAsc, List.insertionSort, List.orderedInsert]
  have e3 : calibrate [0, 0, 0, 0, 0, 0, 0, 0, 0, 0, 0, 0] = 0 := by
    norm_num [calibrate, sortAsc, List.insertionSort, List.orderedInsert, jsRound]
  have e4 : lowerMedianSpec [0, 0, 0, 0, 0, 0, 0, 0, 0, 0, 0, 0] = 0 := by
    norm_num [lowerMedianSpec, sortAsc, List.insertionSort, List.orderedInsert]
  refine ⟨e1, e2, e3, e4, ?_⟩
  rintro ⟨b, hb⟩
  have h1 := hb [0, 0, 0, 0, 0, 0, 3, 3, 3, 3, 3, 3]
  have h2 := hb [0, 0, 0, 0, 0, 0, 0, 0, 0, 0, 0, 0]
  rw [e1, e2] at h1
  rw [e3, e4] at h2
  linarith

/-- The element the calibration picks is an upper median of the
samples: every sorted element before index `⌊N/2⌋` is at most it, every
sorted element from that index on is at least it. -/
theorem upper_median_bounds (samples : List ℚ) (hne : samples ≠ []) :
    (∀ x ∈ (sortAsc samples).take (samples.length / 2),
        x ≤ (sortAsc samples).getD (samples.length / 2) 0)
    ∧ (∀ x ∈ (sortAsc samples).drop (samples.length / 2),
        (sortAsc samples).getD (samples.length / 2) 0 ≤ x) := by
  set l := sortAsc samples with hl
  set k := samples.length / 2 with hk
  have hs : List.Sorted (· ≤ ·) l := List.sorted_insertionSort _ _
  have hlen : l.length = samples.length := (List.perm_insertionSort _ _).length_eq
  have hidx : k < l.length := by
    rw [hlen, hk]
    exact Nat.div_lt_self (List.length_pos.mpr hne) one_lt_two
  have hgd : l.getD k 0 = l[k] := List.getD_eq_getElem _ _ hidx
  have hdropcons : l.drop k = l[k] :: l.drop (k + 1) := List.drop_eq_getElem_cons hidx
  have hp : List.Pairwise (· ≤ ·) (l.take k ++ l.drop k) := by
    rw [List.take_append_drop]
    exact hs
  rw [List.pairwise_append] at hp
  obtain ⟨-, hdrop, hcross⟩ := hp
  constructor
  · intro x hx
    rw [hgd]
    exact hcross x hx _ (by rw [hdropcons]; exact List.mem_cons_self _ _)
  · intro x hx
    rw [hgd]
    rw [hdropcons] at hx hdrop
    rcases List.mem_cons.mp hx with hx | hx
    · rw [hx]
    · exact (List.pairwise_cons.mp hdrop).1 x hx

/-- C3 amended: the calibration over the N = 12 (≥ 10) collected
samples returns a non-negative value equal to
`max(0, round(m))` where `m` is the element at index `⌊N/2⌋` of the
ascending-sorted samples — the upper-middle element for even N, with no
buffer added; `m` is a genuine upper median: it belongs to the samples,
at least half the sorted samples lie at or below it and the rest at or
above it. -/
theorem calibrate_upper_median (samples : List ℚ) :
    0 ≤ calibrate samples
    ∧ List.Sorted (· ≤ ·) (sortAsc samples)
    ∧ (sortAsc samples).Perm samples
    ∧ 10 ≤ calibrationSampleCount
    ∧ calibrate samples =
        max 0 ((jsRound ((sortAsc samples).getD (samples.length / 2) 0) : ℤ) : ℚ)
    ∧ (samples ≠ [] → (sortAsc samples).getD (samples.length / 2) 0 ∈ samples)
    ∧ (samples ≠ [] → ∀ x ∈ (sortAsc samples).take (samples.length / 2),
        x ≤ (sortAsc samples).getD (samples.length / 2) 0)
    ∧ (samples ≠ [] → ∀ x ∈ (sortAsc samples).drop (samples.length / 2),
        (sortAsc samples).getD (samples.length / 2) 0 ≤ x) := by
  refine ⟨le_max_left 0 _, List.sorted_insertionSort _ _, List.perm_insertionSort _ _,
    by norm_num [calibrationSampleCount], rfl, ?_,
    fun hne => (upper_median_bounds samples hne).1,
    fun hne => (upper_median_bounds samples hne).2⟩
  intro hne
  have hlen : (sortAsc samples).length = samples.length :=
    (List.perm_insertionSort _ _).length_eq
  have hidx : samples.length / 2 < (sortAsc samples).length := by
    rw [hlen]
    exact Nat.div_lt_self (List.length_pos.mpr hne) one_lt_two
  rw [List.getD_eq_getElem _ _ hidx]
  exact (List.perm_insertionSort _ _).mem_iff.mp (List.getElem_mem hidx)

/-- Witness for the amended C3 at the sample set of the specification
example scenario `[1,2,1,3,50,1,2,1,2,1]` (with two extra samples,
matching the N = 12 the code collects): the returned compensation is the
upper median 2, unskewed by the outlier 50. -/
theorem calibrate_upper_median_witness :
    0 ≤ calibrate [1, 2, 1, 3, 50, 1, 2, 1, 2, 1, 1, 2]
    ∧ calibrate [1, 2, 1, 3, 50, 1, 2, 1, 2, 1, 1, 2] = 2
    ∧ (sortAsc [1, 2, 1, 3, 50, 1, 2, 1, 2, 1, 1, 2]).getD
        (([1, 2, 1, 3, 50, 1, 2, 1, 2, 1, 1, 2] : List ℚ).length / 2) 0
        ∈ ([1, 2, 1, 3, 50, 1, 2, 1, 2, 1, 1, 2] : List ℚ) := by
  refine ⟨(calibrate_upper_median [1, 2, 1, 3, 50, 1, 2, 1, 2, 1, 1, 2]).1, ?_,
    (calibrate_upper_median [1, 2, 1, 3, 50, 1, 2, 1, 2, 1, 1, 2]).2.2.2.2.2.1
      (List.cons_ne_nil _ _)⟩
  norm_num [calibrate, sortAsc, List.insertionSort, List.orderedInsert, jsRound]

/-- C6 helper: appending after an inner truncation at k and truncating
again at k is one truncation at k. -/
theorem take_append_take (a b : List RResult) (k : ℕ) :
    (a ++ b.take k).take k = (a ++ b).take k := by
  rw [List.take_append_eq_append_take, List.take_append_eq_append_take, List.take_take,
    min_eq_left (Nat.sub_le k a.length)]

/-- C6 helper: recording a sequence of attempts (oldest first) into a
ledger currently within its cap yields the 10 newest attempts,
newest first. -/
theorem recordMany_results (rs : List RResult) (s : Sys) (h : s.results.length ≤ 10) :
    (recordMany s rs).results = (rs.reverse ++ s.results).take 10 := by
  induction rs generalizing s with
  | nil =>
      simp only [recordMany, List.foldl_nil, List.reverse_nil, List.nil_append]
      exact (List.take_of_length_le h).symm
  | cons r rs ih =>
      have hlen : (pushResult r s).results.length ≤ 10 := by
        rw [pushResult_results]
        simp
      rw [recordMany, List.foldl_cons]
      have hstep := ih (pushResult r s) hlen
      rw [recordMany] at hstep
      rw [hstep, pushResult_results, take_append_take, List.reverse_cons,
        List.append_assoc, List.singleton_append]

/-- C6: the attempt history never exceeds 10 entries; recording a
sequence of attempts into a fresh ledger keeps them newest first
(the reverse of insertion order, truncated to 10); and after recording
an 11th attempt the oldest one is gone. -/
theorem ledger_cap_order_drop (r r0 : RResult) (s : Sys) (rs rest : List RResult)
    (h10 : rest.length = 10) (hni : r0 ∉ rest) :
    (pushResult r s).results.length ≤ 10
    ∧ (recordMany (initSys none) rs).results = rs.reverse.take 10
    ∧ r0 ∉ (recordMany (initSys none) (r0 :: rest)).results := by
  refine ⟨?_, ?_, ?_⟩
  · rw [pushResult_results]
    simp
  · have h := recordMany_results rs (initSys none) (by simp [initSys])
    simpa [initSys] using h
  · have h := recordMany_results (r0 :: rest) (initSys none) (by simp [initSys])
    rw [h]
    have hl : rest.reverse.length = 10 := by simp [h10]
    rw [List.reverse_cons]
    simp only [initSys, List.append_nil]
    rw [List.take_append_eq_append_take, hl, List.take_of_length_le (le_of_eq hl)]
    simp [List.mem_reverse, hni]

/-- A concrete attempt used by the C6 witness. -/
def mkAttempt (i : ℤ) : RResult := { time := some i, jumpStart := false, timestamp := 0 }

/-- Witness for C6: recording attempt 0 followed by attempts 1..10
leaves a 10-entry history without attempt 0. -/
theorem ledger_cap_order_drop_witness :
    (pushResult (mkAttempt 5) (initSys none)).results.length ≤ 10
    ∧ (recordMany (initSys none) [mkAttempt 1, mkAttempt 2]).results =
        ([mkAttempt 1, mkAttempt 2].reverse).take 10
    ∧ mkAttempt 0 ∉ (recordMany (initSys none)
        (mkAttempt 0 :: [mkAttempt 1, mkAttempt 2, mkAttempt 3, mkAttempt 4, mkAttempt 5,
          mkAttempt 6, mkAttempt 7, mkAttempt 8, mkAttempt 9, mkAttempt 10])).results :=
  ledger_cap_order_drop (mkAttempt 5) (mkAttempt 0) (initSys none)
    [mkAttempt 1, mkAttempt 2]
    [mkAttempt 1, mkAttempt 2, mkAttempt 3, mkAttempt 4, mkAttempt 5,
      mkAttempt 6, mkAttempt 7, mkAttempt 8, mkAttempt 9, mkAttempt 10]
    (by simp) (by decide)

/-- C10: in every reachable state the round-active flag is set exactly
when the game state is `countdown`, `waiting` or `reacting`; and a
begin request while the flag is set is a complete no-op (state, flag and
light progress all unchanged). -/
theorem running_flag_iff_active_state (s : Sys) (now : ℚ) (h : Reach s) :
    (s.running = true ↔
      (s.gameState = GameState.countdown ∨ s.gameState = GameState.waiting ∨
        s.gameState = GameState.reacting))
    ∧ (s.running = true → startGame now s = s) := by
  refine ⟨(reach_goodSys h).1, ?_⟩
  intro hr
  rw [startGame, if_pos hr]

/-- Witness for C10 on a freshly started round: the flag is up, the
state is in the active range, and a second begin request is a no-op. -/
theorem running_flag_iff_active_state_witness :
    ((startGame 5 (initSys none)).running = true ↔
      ((startGame 5 (initSys none)).gameState = GameState.countdown ∨
        (startGame 5 (initSys none)).gameState = GameState.waiting ∨
        (startGame 5 (initSys none)).gameState = GameState.reacting))
    ∧ startGame 7 (startGame 5 (initSys none)) = startGame 5 (initSys none) := by
  have h := running_flag_iff_active_state (startGame 5 (initSys none)) 7
    (Reach.start 5 (Reach.init none))
  exact ⟨h.1, h.2 (by norm_num [startGame, initSys])⟩

/-- C5 (demonstration of the code bug on a reachable trace): with
compensation 10, a reaction 4 ms after lights-out records a (clamped)
0 ms attempt, making the best 0; in the next round a reaction 202 ms
after lights-out records 192 ms, and because the source guards the
update with `r.time < (bestRef.current || Infinity)` — where the falsy
best 0 is replaced by `Infinity` — the best is overwritten with 192:
the best increased, contradicting monotone improvement. -/
theorem best_increases_after_zero_best :
    (handleReaction 6004 (timeoutFire 6000 (frameTick 4100 (startGame 0
      (calibFinish [10, 10, 10, 10, 10, 10, 10, 10, 10, 10, 10, 10]
        (initSys none)))))).best = JsNum.num 0
    ∧ (handleReaction 13202 (timeoutFire 13000 (frameTick 11100 (handleReaction 7000
        (handleReaction 6004 (timeoutFire 6000 (frameTick 4100 (startGame 0
          (calibFinish [10, 10, 10, 10, 10, 10, 10, 10, 10, 10, 10, 10]
            (initSys none)))))))))).best = JsNum.num 192
    ∧ ¬ (192 : ℤ) < 0 := by
  refine ⟨?_, ?_, by norm_num⟩ <;>
    norm_num [handleReaction, timeoutFire, frameTick, startGame, calibFinish, calibrate,
      sortAsc, List.insertionSort, List.orderedInsert, pushResult, toLight,
      stopRunningClean, jsLt, jsOr, jsTruthy, jsRound, initSys]

/-- C7: while the animation frame is pending, a tick at time `now`
shows exactly `min(5, ⌊(now - t0)/1000⌋ + 1)` lights; that formula is
monotone in `now`, so progress never skips backward under scheduling
jitter; and the lights-out timeout resets the progress to 0 at the very
instant it records as the lights-out time. -/
theorem progress_formula_monotone_reset (s : Sys) (n1 n2 : ℚ) :
    (s.rafLive = true → (frameTick n1 s).activeLights = toLight s.lightsStart n1)
    ∧ (n1 ≤ n2 → toLight s.lightsStart n1 ≤ toLight s.lightsStart n2)
    ∧ (s.timeoutLive = true →
        (timeoutFire n2 s).activeLights = 0 ∧ (timeoutFire n2 s).lightsOutTime = n2) := by
  refine ⟨?_, ?_, ?_⟩
  · intro h
    rw [frameTick, if_pos h]
    dsimp only
    split
    · rfl
    · rfl
  · intro h
    unfold toLight
    have hfl : ⌊(n1 - s.lightsStart) / 1000⌋ ≤ ⌊(n2 - s.lightsStart) / 1000⌋ :=
      Int.floor_le_floor (by linarith)
    exact min_le_min (le_refl 5) (add_le_add_right hfl 1)
  · intro h
    rw [timeoutFire, if_pos h]
    exact ⟨rfl, rfl⟩

/-- Witness for C7: at 1.5 s into a round the formula shows 2 lights,
progress at 2.5 s is at least that, and the lights-out timeout firing at
6 s resets the lights and stamps 6000. -/
theorem progress_formula_monotone_reset_witness :
    (frameTick 1500 (startGame 0 (initSys none))).activeLights = toLight 0 1500
    ∧ toLight 0 1500 ≤ toLight 0 2500
    ∧ (timeoutFire 6000 (frameTick 4100 (startGame 0 (initSys none)))).activeLights = 0
    ∧ (timeoutFire 6000 (frameTick 4100 (startGame 0
        (initSys none)))).lightsOutTime = 6000 := by
  have h1 := (progress_formula_monotone_reset (startGame 0 (initSys none)) 1500 2500).1
    (by norm_num [startGame, initSys])
  have h2 := (progress_formula_monotone_reset (startGame 0 (initSys none)) 1500 2500).2.1
    (by norm_num)
  have h3 := (progress_formula_monotone_reset
      (frameTick 4100 (startGame 0 (initSys none))) 1500 6000).2.2
    (by norm_num [frameTick, startGame, initSys, toLight])
  exact ⟨h1, h2, h3.1, h3.2⟩

/-- C8 counterexample: in the initial state calibration is still
running (`isCalibrating = true`), yet a reaction signal is not blocked —
it transitions the game state out of `idle` into `countdown` and starts
a round, because the window-level input listeners are registered on
mount and neither they nor `handleReaction` consult the calibrating
flag. -/
theorem calibrating_does_not_block_counterexample :
    (initSys none).isCalibrating = true
    ∧ (handleReaction 100 (initSys none)).gameState = GameState.countdown
    ∧ (handleReaction 100 (initSys none)).running = true := by
  refine ⟨rfl, ?_, ?_⟩ <;> norm_num [handleReaction, initSys, startGame]

/-- C8 amended: while calibration is running the page only renders a
calibrating screen; game interaction is not blocked: a reaction signal
in the initial (calibrating, idle) state behaves exactly as a begin
request — it starts a round and enters `countdown` before calibration
has completed. -/
theorem calibrating_does_not_block (stored : Option String) (now : ℚ) :
    (initSys stored).isCalibrating = true
    ∧ handleReaction now (initSys stored) = startGame now (initSys stored)
    ∧ (handleReaction now (initSys stored)).gameState = GameState.countdown
    ∧ (handleReaction now (initSys stored)).running = true := by
  have hred : handleReaction now (initSys stored) = startGame now (initSys stored) := by
    rw [handleReaction]
    simp [initSys]
  refine ⟨rfl, hred, ?_, ?_⟩ <;> rw [hred] <;> norm_num [startGame, initSys]

/-- C9: a stored best that converts to `NaN` (a non-numeric string) is
loaded as `NaN`, and because the update guard reads
`bestRef.current || Infinity`, the falsy `NaN` acts as `Infinity`:
the first valid attempt becomes the new best and is persisted, and the
resulting state is identical to the one reached when nothing was
stored at all. -/
theorem corrupt_best_treated_as_unset (str : String) (t : ℤ) (ts : ℚ)
    (hbad : jsNumber str = JsNum.nan) (hne : str ≠ "") :
    (loadBestStored (initSys (some str))).best = JsNum.nan
    ∧ (pushResult { time := some t, jumpStart := false, timestamp := ts }
        (loadBestStored (initSys (some str)))).best = JsNum.num t
    ∧ (pushResult { time := some t, jumpStart := false, timestamp := ts }
        (loadBestStored (initSys (some str)))).store = some (toString t)
    ∧ pushResult { time := some t, jumpStart := false, timestamp := ts }
        (loadBestStored (initSys (some str)))
      = pushResult { time := some t, jumpStart := false, timestamp := ts }
        (loadBestStored (initSys none)) := by
  have h1 : loadBestStored (initSys (some str)) =
      { initSys (some str) with best := JsNum.nan } := by
    simp only [loadBestStored, initSys]
    rw [if_neg hne, hbad]
  rw [h1]
  simp [pushResult, jsOr, jsTruthy, jsLt, loadBestStored, initSys]

/-- Witness for C9 with the corrupt stored string `"abc"` and a first
valid attempt of 250 ms. -/
theorem corrupt_best_treated_as_unset_witness :
    (loadBestStored (initSys (some ("abc")))).best = JsNum.nan
    ∧ (pushResult { time := some 250, jumpStart := false, timestamp := 0 }
        (loadBestStored (initSys (some ("abc"))))).best = JsNum.num 250
    ∧ (pushResult { time := some 250, jumpStart := false, timestamp := 0 }
        (loadBestStored (initSys (some ("abc"))))).store = some (toString (250 : ℤ))
    ∧ pushResult { time := some 250, jumpStart := false, timestamp := 0 }
        (loadBestStored (initSys (some ("abc"))))
      = pushResult { time := some 250, jumpStart := false, timestamp := 0 }
        (loadBestStored (initSys none)) :=
  corrupt_best_treated_as_unset "abc" 250 0 (by decide) (by decide)

end EqualabReaction
